import Mathlib

/-!
Shallow embedding of `src/upload_to_hf.py`, a single-file script that
uploads a local `results` directory to a remote Hugging Face dataset
repository.  The script's observable behaviour is modelled as a pure
function from a `World` (the environment variables, the outcome of the
git subprocess, and the outcomes the remote service would return for
each network call) to the ordered trace of network calls it makes plus
its final outcome (normal completion or an unhandled exception).
-/

/-- Outcome of running `subprocess.run(["git", "rev-parse", "--short", "HEAD"],
capture_output=True, text=True, check=True)` (lines 12-17 of the source):
either it succeeds with some stdout text, or it raises
`subprocess.CalledProcessError` (non-zero exit, because of `check=True`),
or it raises `FileNotFoundError` (the `git` tool is missing). -/
inductive GitOutcome where
  | success (stdout : String) : GitOutcome
  | calledProcessError (msg : String) : GitOutcome
  | fileNotFound : GitOutcome
deriving DecidableEq, Repr

/-- A network call made through the `huggingface_hub` client, in the order
the script issues them: `api.whoami` (line 45), `create_repo` (line 69,
which is also passed `private=False` and the token, not modelled because
they are constants), and `api.upload_file` (lines 101-108, which is also
passed the token). -/
inductive Call where
  | whoami : Call
  | createRepo (repoId : String) (repoType : String) : Call
  | uploadFile (path : String) (pathInRepo : String) (repoId : String)
      (repoType : String) (commitMessage : String) : Call
deriving DecidableEq, Repr

/-- Final outcome of the run: normal completion, or an unhandled exception
whose textual representation is the given string. -/
inductive Outcome where
  | ok : Outcome
  | error (msg : String) : Outcome
deriving DecidableEq, Repr

/-- The world the script runs in: the environment variables it reads
(after `load_dotenv()`; `none` = unset), the outcome of the git
subprocess, the result the remote service would give to `whoami`
(`Except.error` = the call raises, `Except.ok v` = it returns a dict whose
`.get("name")` is `v`), the result of `create_repo` (`none` = success,
`some e` = it raises an exception with `str(e) = e`), whether the
`results` path exists and is a directory, the regular files found under
it by `results_dir.glob("**/*")` (paths relative to the `results`
directory, in traversal order), and the per-file result of
`api.upload_file` (keyed by the file's path; `none` = success). -/
structure World where
  hfToken : Option String
  hfUsername : Option String
  hfRepoName : Option String
  git : GitOutcome
  whoamiResult : Except String (Option String)
  createRepoError : Option String
  resultsDirOk : Bool
  files : List String
  uploadError : String → Option String

/-- Python truthiness test `not s` for an optional string: true when the
variable is unset (`os.getenv` returned `None`) or set to the empty
string. -/
def pyFalsy : Option String → Bool
  | none => true
  | some s => s.isEmpty

/-- Does `as` lead the list `bs` (i.e. `bs` starts with `as`)? Helper for
the substring test. -/
def leadsWith : List Char → List Char → Bool
  | [], _ => true
  | _ :: _, [] => false
  | a :: as, b :: bs => a == b && leadsWith as bs

/-- Does `n` occur as a contiguous run inside the list? -/
def hasSubAux (n : List Char) : List Char → Bool
  | [] => leadsWith n []
  | c :: rest => leadsWith n (c :: rest) || hasSubAux n rest

/-- Python's `needle in hay` substring test on strings. -/
def strHasSub (hay needle : String) : Bool :=
  hasSubAux needle.toList hay.toList

/-- Drop leading whitespace characters from a character list. -/
def dropLeadingWs : List Char → List Char
  | [] => []
  | c :: rest => if c.isWhitespace then dropLeadingWs rest else c :: rest

/-- Python's `str.strip()`: remove whitespace from both ends of a string. -/
def pyStrip (s : String) : String :=
  String.mk ((dropLeadingWs (dropLeadingWs s.toList).reverse).reverse)

/-- Lines 8-25: `get_current_git_commit`.  On success returns
`result.stdout.strip()` (the whole stdout trimmed of surrounding
whitespace); both exception branches are caught and return `None`. -/
def get_current_git_commit : GitOutcome → Option String
  | GitOutcome.success out => some (pyStrip out)
  | GitOutcome.calledProcessError _ => none
  | GitOutcome.fileNotFound => none

/-- Diagnostic lines printed by `get_current_git_commit` (lines 21 and 24):
one line in each caught-exception branch, none on success. -/
def gitLogLines : GitOutcome → List String
  | GitOutcome.success _ => []
  | GitOutcome.calledProcessError m => ["Error getting git commit ID: " ++ m]
  | GitOutcome.fileNotFound => ["Git command not found. Make sure git is installed."]

/-- The error message raised when the username cannot be derived from the
token (lines 48 and 52; both raise paths use the same text). -/
def couldNotRetrieveMsg : String :=
  "Could not retrieve username from API token. Please set HF_USERNAME in .env file."

/-- Lines 40-52: resolve `hf_username`.  If `HF_USERNAME` is falsy, call
`api.whoami`; any exception from the `try` block (including the inner
`ValueError` raised when `user_info.get("name")` is falsy) is caught and
re-raised as a fresh `ValueError`.  Returns the calls made and either the
resolved username or the error message of the raised exception. -/
def resolveUsername (w : World) : List Call × Except String String :=
  if pyFalsy w.hfUsername then
    match w.whoamiResult with
    | Except.error _ => ([Call.whoami], Except.error couldNotRetrieveMsg)
    | Except.ok nameOpt =>
      if pyFalsy nameOpt then ([Call.whoami], Except.error couldNotRetrieveMsg)
      else ([Call.whoami], Except.ok (nameOpt.getD ""))
  else ([], Except.ok (w.hfUsername.getD ""))

/-- Lines 55-58: `repo_name = os.getenv("HF_REPO_NAME", "longbench-results")`
and `repo_id = f"{hf_username}/{repo_name}"`. -/
def repoIdOf (hf_username : String) (hfRepoName : Option String) : String :=
  hf_username ++ "/" ++ hfRepoName.getD "longbench-results"

/-- Lines 61-63: the run-wide commit-message prefix, `"Update from github
(commit id) {commit_id}"` when `commit_id` is truthy, else the literal
`"update"`. -/
def commitPrefOf (g : GitOutcome) : String :=
  match get_current_git_commit g with
  | some c => if c.isEmpty then "update" else "Update from github (commit id) " ++ c
  | none => "update"

/-- Line 96: `os.path.relpath(file_path, start=".")`.  Every path handed to
it comes from `Path("results").glob("**/*")` and so is already a
normalised relative path (`results/...` with no `.` or `..` components);
on such paths `relpath` with start `"."` is the identity. -/
def relpathFromDot (p : String) : String := p

/-- Lines 95-108: the upload loop.  For each file path, compute the
relative path, build the commit message `f"{commit_prefix} - {relative_path}"`,
and call `api.upload_file`.  An exception from `upload_file` is not
caught: the loop stops and the exception propagates.  Returns the upload
calls made (in order, including the failing one) and the outcome. -/
def uploadLoop (upErr : String → Option String) (repo_id cp : String) :
    List String → List Call × Outcome
  | [] => ([], Outcome.ok)
  | fp :: rest =>
    let rel := relpathFromDot fp
    let c := Call.uploadFile fp rel repo_id "dataset" (cp ++ " - " ++ rel)
    match upErr fp with
    | some e => ([c], Outcome.error e)
    | none =>
      let r := uploadLoop upErr repo_id cp rest
      (c :: r.1, r.2)

/-- Lines 80-108: after repository creation has succeeded (or been
tolerated).  Lines 81-83 raise `ValueError` when `results` is missing or
not a directory; lines 89-92 collect `str(file_path)` for every regular
file under it (so each path carries the `results/` component); then the
upload loop runs. -/
def afterCreate (w : World) (repo_id cp : String) : List Call × Outcome :=
  if w.resultsDirOk then
    uploadLoop w.uploadError repo_id cp (w.files.map (fun p => "results/" ++ p))
  else ([], Outcome.error "Results directory not found at results")

/-- Lines 54-108: everything after the username is resolved.  Lines 67-78:
`create_repo(repo_id, repo_type="dataset", ...)`; an exception whose text
contains `"You already created this"` or `"409"` is treated as success,
any other exception is re-raised. -/
def afterUser (w : World) (hf_username : String) : List Call × Outcome :=
  let repo_id := repoIdOf hf_username w.hfRepoName
  let cp := commitPrefOf w.git
  match w.createRepoError with
  | some e =>
    if strHasSub e "You already created this" || strHasSub e "409" then
      (Call.createRepo repo_id "dataset" :: (afterCreate w repo_id cp).1,
       (afterCreate w repo_id cp).2)
    else ([Call.createRepo repo_id "dataset"], Outcome.error e)
  | none =>
    (Call.createRepo repo_id "dataset" :: (afterCreate w repo_id cp).1,
     (afterCreate w repo_id cp).2)

/-- Lines 27-112: `upload_to_huggingface`.  Line 32-34: `HF_TOKEN` falsy
raises `ValueError("HF_TOKEN not found in .env file")` before any network
call (`HfApi(token=...)` on line 37 makes no network request).  Then the
username is resolved, and the rest of the run proceeds.  Returns the
ordered trace of network calls and the final outcome. -/
def upload_to_huggingface (w : World) : List Call × Outcome :=
  if pyFalsy w.hfToken then
    ([], Outcome.error "HF_TOKEN not found in .env file")
  else
    match (resolveUsername w).2 with
    | Except.error m => ((resolveUsername w).1, Outcome.error m)
    | Except.ok hf_username =>
      ((resolveUsername w).1 ++ (afterUser w hf_username).1,
       (afterUser w hf_username).2)

/-- Is this call an `upload_file` call? -/
def Call.isUpload : Call → Bool
  | Call.uploadFile _ _ _ _ _ => true
  | _ => false

/-- Is this call a `create_repo` call? -/
def Call.isCreate : Call → Bool
  | Call.createRepo _ _ => true
  | _ => false

/-- The remote destination paths (`path_in_repo`) of the upload calls in a
trace, in order. -/
def uploadDests (cs : List Call) : List String :=
  cs.filterMap fun c =>
    match c with
    | Call.uploadFile _ rel _ _ _ => some rel
    | _ => none

/-- Does the call target the given repository id with `repo_type="dataset"`?
(`whoami` targets no repository.) -/
def Call.targetsRepo (c : Call) (rid : String) : Prop :=
  match c with
  | Call.whoami => True
  | Call.createRepo r t => r = rid ∧ t = "dataset"
  | Call.uploadFile _ _ r t _ => r = rid ∧ t = "dataset"

/-- Characters up to (excluding) the first newline. -/
def firstLineChars : List Char → List Char
  | [] => []
  | c :: rest => if c = '\n' then [] else c :: firstLineChars rest

/-- Modelled from the spec: the spec's description of the revision
identifier, "output is plain text, first line trimmed" — the first line
of the subprocess output, trimmed of surrounding whitespace.  (The code
itself trims the whole output; this definition follows the spec's words
for comparison.) -/
def firstLineTrimmed (out : String) : String :=
  pyStrip (String.mk (firstLineChars out.toList))

/-- A concrete world used to instantiate hypothesised theorems: token and
username set, default repository name, git succeeding, an existing
results directory holding `a.txt` and `sub/b.txt`, and every remote call
succeeding. -/
def baseWorld : World :=
  { hfToken := some "tok"
    hfUsername := some "alice"
    hfRepoName := none
    git := GitOutcome.success "abc123\n"
    whoamiResult := Except.ok (some "alice")
    createRepoError := none
    resultsDirOk := true
    files := ["a.txt", "sub/b.txt"]
    uploadError := fun _ => none }

/-- A world whose `create_repo` call raises a conflict error containing
"409". -/
def w1c : World := { baseWorld with createRepoError := some "409 Conflict" }

/-- A world with three files whose second upload fails. -/
def w4 : World :=
  { baseWorld with
    files := ["a.txt", "sub/b.txt", "c.txt"]
    uploadError := fun fp =>
      if fp = "results/sub/b.txt" then some "upload failed" else none }

/-- A world in which the git tool is missing. -/
def w7 : World := { baseWorld with git := GitOutcome.fileNotFound }

/-- Every call emitted by the upload loop is an `upload_file` call for one
of the enumerated files, targeting the given repository with type
`"dataset"` and the commit message built from the prefix. -/
theorem uploadLoop_mem (upErr : String → Option String) (rid cp : String) :
    ∀ (fps : List String) (c : Call), c ∈ (uploadLoop upErr rid cp fps).1 →
      ∃ fp, fp ∈ fps ∧
        c = Call.uploadFile fp (relpathFromDot fp) rid "dataset"
              (cp ++ " - " ++ relpathFromDot fp) := by
  intro fps
  induction fps with
  | nil => intro c hc; simp [uploadLoop] at hc
  | cons fp rest ih =>
    intro c hc
    unfold uploadLoop at hc
    cases hup : upErr fp with
    | some e =>
      rw [hup] at hc
      simp at hc
      exact ⟨fp, by simp, hc⟩
    | none =>
      rw [hup] at hc
      simp at hc
      rcases hc with hc | hc
      · exact ⟨fp, by simp, hc⟩
      · rcases ih c hc with ⟨fp', hmem, heq⟩
        exact ⟨fp', by simp [hmem], heq⟩

/-- When every enumerated file uploads successfully, the loop uploads each
file exactly once, in order, and completes normally. -/
theorem uploadLoop_all_ok (upErr : String → Option String) (rid cp : String) :
    ∀ (fps : List String), (∀ fp ∈ fps, upErr fp = none) →
      uploadLoop upErr rid cp fps =
        (fps.map fun fp =>
           Call.uploadFile fp (relpathFromDot fp) rid "dataset"
             (cp ++ " - " ++ relpathFromDot fp),
         Outcome.ok) := by
  intro fps
  induction fps with
  | nil => intro _; rfl
  | cons fp rest ih =>
    intro h
    unfold uploadLoop
    rw [h fp (by simp), ih fun g hg => h g (by simp [hg])]
    rfl

/-- When the first failing file is `f` (everything before it succeeds), the
loop makes one call per earlier file plus the failing call for `f`, makes
no call for any later file, and the error propagates. -/
theorem uploadLoop_first_err (upErr : String → Option String) (rid cp : String) :
    ∀ (pre : List String) (f e : String) (post : List String),
      (∀ g ∈ pre, upErr g = none) → upErr f = some e →
      uploadLoop upErr rid cp (pre ++ f :: post) =
        ((pre ++ [f]).map fun fp =>
           Call.uploadFile fp (relpathFromDot fp) rid "dataset"
             (cp ++ " - " ++ relpathFromDot fp),
         Outcome.error e) := by
  intro pre
  induction pre with
  | nil =>
    intro f e post _ hf
    simp only [List.nil_append]
    unfold uploadLoop
    rw [hf]
    rfl
  | cons g rest ih =>
    intro f e post hpre hf
    simp only [List.cons_append]
    unfold uploadLoop
    rw [hpre g (by simp), ih f e post (fun g' hg' => hpre g' (by simp [hg'])) hf]
    rfl

/-- The username-resolution step makes either no network call or exactly
the `whoami` call. -/
theorem resolveUsername_trace (w : World) :
    (resolveUsername w).1 = [] ∨ (resolveUsername w).1 = [Call.whoami] := by
  unfold resolveUsername
  split
  · split
    · right; rfl
    · split
      · right; rfl
      · right; rfl
  · left; rfl

/-- When `HF_USERNAME` is set to a non-empty value, username resolution
makes no call and returns that value. -/
theorem resolveUsername_set (w : World) (h : pyFalsy w.hfUsername = false) :
    resolveUsername w = ([], Except.ok (w.hfUsername.getD "")) := by
  unfold resolveUsername
  rw [h]
  simp

/-- When `HF_USERNAME` is unset or empty, username resolution makes the
`whoami` call. -/
theorem resolveUsername_whoami (w : World) (h : pyFalsy w.hfUsername = true) :
    (resolveUsername w).1 = [Call.whoami] := by
  unfold resolveUsername
  rw [h]
  simp only [if_true]
  split
  · rfl
  · split <;> rfl

/-- When the results directory exists, the post-creation phase is exactly
the upload loop over the globbed files (each carrying the `results/`
path component). -/
theorem afterCreate_dir_ok (w : World) (rid cp : String) (h : w.resultsDirOk = true) :
    afterCreate w rid cp =
      uploadLoop w.uploadError rid cp (w.files.map fun p => "results/" ++ p) := by
  unfold afterCreate
  rw [h]
  rfl

/-- Every call of the post-creation phase is an upload call targeting the
given repository id, with type `"dataset"` and the prefixed commit
message. -/
theorem afterCreate_mem (w : World) (rid cp : String) (c : Call)
    (h : c ∈ (afterCreate w rid cp).1) :
    ∃ fp, c = Call.uploadFile fp (relpathFromDot fp) rid "dataset"
      (cp ++ " - " ++ relpathFromDot fp) := by
  unfold afterCreate at h
  split at h
  · rcases uploadLoop_mem _ _ _ _ _ h with ⟨fp, _, heq⟩
    exact ⟨fp, heq⟩
  · simp at h

/-- When `create_repo` succeeds, the post-username phase is the creation
call followed by the post-creation phase. -/
theorem afterUser_ok (w : World) (u : String) (h : w.createRepoError = none) :
    afterUser w u =
      (Call.createRepo (repoIdOf u w.hfRepoName) "dataset" ::
         (afterCreate w (repoIdOf u w.hfRepoName) (commitPrefOf w.git)).1,
       (afterCreate w (repoIdOf u w.hfRepoName) (commitPrefOf w.git)).2) := by
  unfold afterUser
  rw [h]

/-- When `create_repo` raises an error that the string-matching heuristic
tolerates, the run proceeds exactly as on creation success. -/
theorem afterUser_tolerated (w : World) (u e : String)
    (he : w.createRepoError = some e)
    (hc : (strHasSub e "You already created this" || strHasSub e "409") = true) :
    afterUser w u =
      (Call.createRepo (repoIdOf u w.hfRepoName) "dataset" ::
         (afterCreate w (repoIdOf u w.hfRepoName) (commitPrefOf w.git)).1,
       (afterCreate w (repoIdOf u w.hfRepoName) (commitPrefOf w.git)).2) := by
  unfold afterUser
  rw [he]
  simp [hc]

/-- When `create_repo` raises any other error, the creation call is the
last call made and the error is re-raised. -/
theorem afterUser_abort (w : World) (u e : String)
    (he : w.createRepoError = some e)
    (hc : (strHasSub e "You already created this" || strHasSub e "409") = false) :
    afterUser w u =
      ([Call.createRepo (repoIdOf u w.hfRepoName) "dataset"], Outcome.error e) := by
  unfold afterUser
  rw [he]
  simp [hc]

/-- Every call of the post-username phase is either the creation call or an
upload call, both targeting `repoIdOf u w.hfRepoName` with type
`"dataset"`. -/
theorem afterUser_mem (w : World) (u : String) (c : Call)
    (h : c ∈ (afterUser w u).1) :
    c = Call.createRepo (repoIdOf u w.hfRepoName) "dataset" ∨
      ∃ fp, c = Call.uploadFile fp (relpathFromDot fp) (repoIdOf u w.hfRepoName) "dataset"
        (commitPrefOf w.git ++ " - " ++ relpathFromDot fp) := by
  cases hcre : w.createRepoError with
  | none =>
    rw [afterUser_ok w u hcre] at h
    rcases List.mem_cons.mp h with h | h
    · left; exact h
    · right; exact afterCreate_mem _ _ _ _ h
  | some e =>
    by_cases hc : (strHasSub e "You already created this" || strHasSub e "409") = true
    · rw [afterUser_tolerated w u e hcre hc] at h
      rcases List.mem_cons.mp h with h | h
      · left; exact h
      · right; exact afterCreate_mem _ _ _ _ h
    · rw [afterUser_abort w u e hcre (by simpa using hc)] at h
      simp at h
      left; exact h

/-- When the token is present and username resolution succeeds, the run is
the resolution calls followed by the post-username phase. -/
theorem run_user_ok (w : World) (u : String)
    (ht : pyFalsy w.hfToken = false)
    (hu : (resolveUsername w).2 = Except.ok u) :
    upload_to_huggingface w =
      ((resolveUsername w).1 ++ (afterUser w u).1, (afterUser w u).2) := by
  unfold upload_to_huggingface
  rw [ht, hu]
  simp

/-- When the token is falsy the run makes no call and raises immediately. -/
theorem run_no_token (w : World) (h : pyFalsy w.hfToken = true) :
    upload_to_huggingface w = ([], Outcome.error "HF_TOKEN not found in .env file") := by
  unfold upload_to_huggingface
  rw [h]
  simp

/-- When the revision lookup yields `None`, the commit-message prefix is
the fallback literal. -/
theorem commitPrefOf_none (g : GitOutcome) (h : get_current_git_commit g = none) :
    commitPrefOf g = "update" := by
  unfold commitPrefOf
  rw [h]

/-- Destination extraction distributes over trace concatenation. -/
theorem uploadDests_append (xs ys : List Call) :
    uploadDests (xs ++ ys) = uploadDests xs ++ uploadDests ys := by
  simp [uploadDests]

/-- Username resolution contributes no upload destinations. -/
theorem uploadDests_resolve (w : World) : uploadDests (resolveUsername w).1 = [] := by
  rcases resolveUsername_trace w with h | h <;> rw [h] <;> rfl

/-- The destinations of the loop's calls over a file list are exactly that
file list. -/
theorem uploadDests_map_calls (rid cp : String) (fps : List String) :
    uploadDests (fps.map fun fp =>
      Call.uploadFile fp (relpathFromDot fp) rid "dataset"
        (cp ++ " - " ++ relpathFromDot fp)) = fps := by
  induction fps with
  | nil => rfl
  | cons fp rest ih =>
    simpa [uploadDests, List.filterMap_cons, relpathFromDot] using ih

/-- Any single call made by username resolution is the `whoami` call. -/
theorem resolveUsername_mem (w : World) (c : Call) (h : c ∈ (resolveUsername w).1) :
    c = Call.whoami := by
  rcases resolveUsername_trace w with ht | ht <;> rw [ht] at h <;> simp at h
  exact h

/-- A creation call contributes no upload destination. -/
theorem uploadDests_create_cons (r t : String) (cs : List Call) :
    uploadDests (Call.createRepo r t :: cs) = uploadDests cs := rfl

/-- C1: for every error raised by the repository-creation call, if its text
contains "409" or "You already created this" the run continues exactly as
if creation had succeeded; for every other creation error the run aborts
with that error re-raised, before any upload call is made. -/
theorem c1_create_repo_error_handling (w : World) (u e : String)
    (ht : pyFalsy w.hfToken = false)
    (hu : (resolveUsername w).2 = Except.ok u)
    (he : w.createRepoError = some e) :
    ((strHasSub e "You already created this" || strHasSub e "409") = true →
       upload_to_huggingface w = upload_to_huggingface { w with createRepoError := none }) ∧
    ((strHasSub e "You already created this" || strHasSub e "409") = false →
       (upload_to_huggingface w).2 = Outcome.error e ∧
       ∀ c ∈ (upload_to_huggingface w).1, c.isUpload = false) := by
  constructor
  · intro hc
    rw [run_user_ok w u ht hu, run_user_ok { w with createRepoError := none } u ht hu,
        afterUser_tolerated w u e he hc, afterUser_ok { w with createRepoError := none } u rfl]
    rfl
  · intro hc
    rw [run_user_ok w u ht hu, afterUser_abort w u e he hc]
    refine ⟨rfl, ?_⟩
    intro c hcmem
    rcases List.mem_append.mp hcmem with h | h
    · rw [resolveUsername_mem w c h]; rfl
    · simp at h
      rw [h]; rfl

/-- C2: when the credential `HF_TOKEN` is absent the run raises
`ValueError("HF_TOKEN not found in .env file")` with an empty call trace,
i.e. before any network call (identity lookup, repository creation or
file upload). -/
theorem c2_missing_token_aborts (w : World) (h : w.hfToken = none) :
    upload_to_huggingface w = ([], Outcome.error "HF_TOKEN not found in .env file") :=
  run_no_token w (by rw [h]; rfl)

/-- C3 counterexample: with `results` holding exactly `a.txt` and
`sub/b.txt` (and every call succeeding), the destination paths passed to
the upload call are `results/a.txt` and `results/sub/b.txt`, and in
particular `a.txt` is not among them — the claimed set
{a.txt, sub/b.txt} is wrong. -/
theorem c3_counterexample :
    uploadDests (upload_to_huggingface baseWorld).1 =
      ["results/a.txt", "results/sub/b.txt"] ∧
    "a.txt" ∉ uploadDests (upload_to_huggingface baseWorld).1 := by decide

/-- C3 (amended): for a results directory containing exactly the files
`a.txt` and `sub/b.txt`, the remote destination paths passed to the
upload call are exactly `results/a.txt` and `results/sub/b.txt`, each
uploaded exactly once — each file's path relative to the working
directory, which carries the `results/` component. -/
theorem c3_upload_set (w : World) (u : String)
    (ht : pyFalsy w.hfToken = false)
    (hu : (resolveUsername w).2 = Except.ok u)
    (hcr : w.createRepoError = none)
    (hd : w.resultsDirOk = true)
    (hfl : w.files = ["a.txt", "sub/b.txt"])
    (hup : ∀ fp, w.uploadError fp = none) :
    uploadDests (upload_to_huggingface w).1 = ["results/a.txt", "results/sub/b.txt"] := by
  have hall : ∀ fp ∈ (w.files.map fun p => "results/" ++ p), w.uploadError fp = none :=
    fun fp _ => hup fp
  rw [run_user_ok w u ht hu, afterUser_ok w u hcr, afterCreate_dir_ok _ _ _ hd,
      uploadLoop_all_ok _ _ _ _ hall, hfl]
  simp only [uploadDests_append, uploadDests_resolve, List.nil_append]
  rw [uploadDests_create_cons, uploadDests_map_calls]
  rfl

/-- C4: if the upload call for some file raises, no upload call is made for
any later file in traversal order, the error propagates unhandled as the
run's outcome, and the destinations uploaded are exactly the earlier
files plus the failing one. -/
theorem c4_upload_error_aborts (w : World) (u e f : String) (pre post : List String)
    (ht : pyFalsy w.hfToken = false)
    (hu : (resolveUsername w).2 = Except.ok u)
    (hcr : w.createRepoError = none)
    (hd : w.resultsDirOk = true)
    (hfiles : w.files = pre ++ f :: post)
    (hpre : ∀ g ∈ pre, w.uploadError ("results/" ++ g) = none)
    (hfail : w.uploadError ("results/" ++ f) = some e) :
    (upload_to_huggingface w).2 = Outcome.error e ∧
    uploadDests (upload_to_huggingface w).1 =
      (pre ++ [f]).map (fun p => "results/" ++ p) := by
  have hpre' : ∀ g ∈ pre.map (fun p => "results/" ++ p), w.uploadError g = none := by
    intro g hg
    rcases List.mem_map.mp hg with ⟨p, hp, rfl⟩
    exact hpre p hp
  have hmap : w.files.map (fun p => "results/" ++ p) =
      (pre.map fun p => "results/" ++ p) ++
        ("results/" ++ f) :: (post.map fun p => "results/" ++ p) := by
    rw [hfiles]; simp
  rw [run_user_ok w u ht hu, afterUser_ok w u hcr, afterCreate_dir_ok _ _ _ hd, hmap,
      uploadLoop_first_err _ _ _ _ _ _ _ hpre' hfail]
  refine ⟨rfl, ?_⟩
  simp only [uploadDests_append, uploadDests_resolve, List.nil_append]
  rw [uploadDests_create_cons, uploadDests_map_calls]
  simp

/-- C5: for every failure of the git subprocess — tool missing
(`FileNotFoundError`) or command error (`CalledProcessError`), the only
failure modes of `subprocess.run(..., check=True)` — the function
returns `None` and prints a diagnostic line.  Both exception branches
are caught, so the function never raises: its codomain in the embedding
is total. -/
theorem c5_git_failure_returns_none (g : GitOutcome)
    (h : ∀ out, g ≠ GitOutcome.success out) :
    get_current_git_commit g = none ∧ gitLogLines g ≠ [] := by
  cases g with
  | success out => exact absurd rfl (h out)
  | calledProcessError m => exact ⟨rfl, by simp [gitLogLines]⟩
  | fileNotFound => exact ⟨rfl, by simp [gitLogLines]⟩

/-- C6: when `HF_USERNAME` is supplied (set to a non-empty value), the
`whoami` identity-lookup call never appears in the run's trace. -/
theorem c6_username_set_no_whoami (w : World)
    (h : pyFalsy w.hfUsername = false) :
    Call.whoami ∉ (upload_to_huggingface w).1 := by
  intro hmem
  rcases Bool.eq_false_or_eq_true (pyFalsy w.hfToken) with ht | ht
  · rw [run_no_token w ht] at hmem
    simp at hmem
  · have hu : (resolveUsername w).2 = Except.ok (w.hfUsername.getD "") := by
      rw [resolveUsername_set w h]
    rw [run_user_ok w _ ht hu] at hmem
    rcases List.mem_append.mp hmem with hmem | hmem
    · rw [resolveUsername_set w h] at hmem
      simp at hmem
    · rcases afterUser_mem w _ _ hmem with hc | ⟨fp, hc⟩ <;> simp at hc

/-- When the token is present but username resolution fails, the run stops
with that error after the resolution calls. -/
theorem run_user_err (w : World) (m : String)
    (ht : pyFalsy w.hfToken = false)
    (hu : (resolveUsername w).2 = Except.error m) :
    upload_to_huggingface w = ((resolveUsername w).1, Outcome.error m) := by
  unfold upload_to_huggingface
  rw [ht, hu]
  simp

/-- When the token is present and the username is falsy, the `whoami` call
is made (it is in the run's trace) whatever the remote service answers. -/
theorem whoami_mem_run (w : World) (ht : pyFalsy w.hfToken = false)
    (hu : pyFalsy w.hfUsername = true) :
    Call.whoami ∈ (upload_to_huggingface w).1 := by
  cases hres : (resolveUsername w).2 with
  | error m =>
    rw [run_user_err w m ht hres]
    simp [resolveUsername_whoami w hu]
  | ok u =>
    rw [run_user_ok w u ht hres]
    simp [resolveUsername_whoami w hu]

/-- C7: when the revision lookup fails (returns `None`), the upload loop
still runs to completion and every per-file commit message uses the
fallback prefix, the literal `"update"`. -/
theorem c7_fallback_commit_messages (w : World) (u : String)
    (ht : pyFalsy w.hfToken = false)
    (hu : (resolveUsername w).2 = Except.ok u)
    (hg : get_current_git_commit w.git = none)
    (hcr : w.createRepoError = none)
    (hd : w.resultsDirOk = true)
    (hup : ∀ fp, w.uploadError fp = none) :
    (upload_to_huggingface w).2 = Outcome.ok ∧
    ∀ c ∈ (upload_to_huggingface w).1, ∀ fp rel rid rt msg,
      c = Call.uploadFile fp rel rid rt msg → msg = "update - " ++ rel := by
  have hall : ∀ fp ∈ (w.files.map fun p => "results/" ++ p), w.uploadError fp = none :=
    fun fp _ => hup fp
  constructor
  · rw [run_user_ok w u ht hu, afterUser_ok w u hcr, afterCreate_dir_ok _ _ _ hd,
        uploadLoop_all_ok _ _ _ _ hall]
  · intro c hc fp rel rid rt msg hceq
    rw [run_user_ok w u ht hu] at hc
    rcases List.mem_append.mp hc with hc | hc
    · rw [resolveUsername_mem w c hc] at hceq
      exact absurd hceq (by simp)
    · rcases afterUser_mem w u c hc with h1 | ⟨fp', h1⟩
      · rw [h1] at hceq
        exact absurd hceq (by simp)
      · rw [h1] at hceq
        injection hceq with h_fp h_rel h_rid h_rt h_msg
        rw [← h_msg, ← h_rel, commitPrefOf_none w.git hg]
        rfl

/-- C8 counterexample: on the two-line subprocess output "abc\ndef\n" the
code returns the whole output stripped ("abc\ndef"), not the first line
trimmed ("abc") that the claim describes. -/
theorem c8_counterexample :
    get_current_git_commit (GitOutcome.success "abc\ndef\n") ≠
      some (firstLineTrimmed "abc\ndef\n") := by decide

/-- C8 (amended): for every output of the git subprocess, the revision
identifier equals the entire output trimmed of surrounding whitespace
(which coincides with the first line trimmed only when the output has at
most one line). -/
theorem c8_revision_is_stripped_stdout (out : String) :
    get_current_git_commit (GitOutcome.success out) = some (pyStrip out) := rfl

/-- C9: setting `HF_TOKEN` or `HF_USERNAME` to the empty string behaves
exactly like leaving it unset — the Python truthiness test treats both
alike: an empty token aborts with no call made, and an empty username
triggers the `whoami` identity lookup. -/
theorem c9_empty_env_vars_like_unset (w : World) :
    (upload_to_huggingface { w with hfToken := some "" } =
       upload_to_huggingface { w with hfToken := none } ∧
     upload_to_huggingface { w with hfToken := some "" } =
       ([], Outcome.error "HF_TOKEN not found in .env file")) ∧
    (upload_to_huggingface { w with hfUsername := some "" } =
       upload_to_huggingface { w with hfUsername := none } ∧
     (pyFalsy w.hfToken = false →
        Call.whoami ∈ (upload_to_huggingface { w with hfUsername := some "" }).1)) := by
  refine ⟨⟨rfl, rfl⟩, rfl, ?_⟩
  intro hT
  exact whoami_mem_run { w with hfUsername := some "" } hT rfl

/-- Username resolution makes no creation call. -/
theorem filter_create_resolve (w : World) :
    (resolveUsername w).1.filter Call.isCreate = [] := by
  rcases resolveUsername_trace w with h | h <;> rw [h] <;> rfl

/-- The post-creation phase makes no creation call. -/
theorem filter_create_afterCreate (w : World) (rid cp : String) :
    (afterCreate w rid cp).1.filter Call.isCreate = [] := by
  rw [List.filter_eq_nil_iff]
  intro c hc
  rcases afterCreate_mem w rid cp c hc with ⟨fp, h⟩
  rw [h]
  simp [Call.isCreate]

/-- The post-username phase makes exactly one creation call, in every
branch of the creation-error handling. -/
theorem filter_create_afterUser (w : World) (u : String) :
    ((afterUser w u).1.filter Call.isCreate).length = 1 := by
  cases hcre : w.createRepoError with
  | none =>
    rw [afterUser_ok w u hcre]
    simp [List.filter_cons, Call.isCreate, filter_create_afterCreate]
  | some e =>
    by_cases hc : (strHasSub e "You already created this" || strHasSub e "409") = true
    · rw [afterUser_tolerated w u e hcre hc]
      simp [List.filter_cons, Call.isCreate, filter_create_afterCreate]
    · rw [afterUser_abort w u e hcre (by simpa using hc)]
      rfl

/-- C10: the remote repository identifier is `<account>/<name>` with the
name defaulting to "longbench-results" when `HF_REPO_NAME` is unset;
exactly one repository-creation call is made, and every call in the run
(creation and each upload) targets that same identifier with repo_type
"dataset". -/
theorem c10_repo_id_consistent (w : World) (u : String)
    (ht : pyFalsy w.hfToken = false)
    (hu : (resolveUsername w).2 = Except.ok u) :
    (w.hfRepoName = none →
       repoIdOf u w.hfRepoName = repoIdOf u (some "longbench-results")) ∧
    (∀ c ∈ (upload_to_huggingface w).1, c.targetsRepo (repoIdOf u w.hfRepoName)) ∧
    ((upload_to_huggingface w).1.filter Call.isCreate).length = 1 := by
  refine ⟨fun h => by rw [h]; rfl, ?_, ?_⟩
  · intro c hc
    rw [run_user_ok w u ht hu] at hc
    rcases List.mem_append.mp hc with hc | hc
    · rw [resolveUsername_mem w c hc]
      exact trivial
    · rcases afterUser_mem w u c hc with h1 | ⟨fp, h1⟩
      · rw [h1]; exact ⟨rfl, rfl⟩
      · rw [h1]; exact ⟨rfl, rfl⟩
  · rw [run_user_ok w u ht hu]
    simp [List.filter_append, filter_create_resolve, filter_create_afterUser]

/-- Witness for C1: on the concrete world `w1c` whose creation error text
contains "409", the run equals the run with creation succeeding. -/
theorem c1_witness :
    upload_to_huggingface w1c = upload_to_huggingface { w1c with createRepoError := none } :=
  (c1_create_repo_error_handling w1c "alice" "409 Conflict" (by decide) rfl rfl).1 (by decide)

/-- Witness for C2: with `HF_TOKEN` unset, the run makes no call and aborts
with the missing-token error. -/
theorem c2_witness :
    upload_to_huggingface { baseWorld with hfToken := none } =
      ([], Outcome.error "HF_TOKEN not found in .env file") :=
  c2_missing_token_aborts { baseWorld with hfToken := none } rfl

/-- Witness for the amended C3 at the concrete base world. -/
theorem c3_witness :
    uploadDests (upload_to_huggingface baseWorld).1 =
      ["results/a.txt", "results/sub/b.txt"] :=
  c3_upload_set baseWorld "alice" (by decide) rfl rfl rfl rfl (fun _ => rfl)

/-- Witness for C4: on `w4` the second upload fails, the run ends with that
error and only the first two destinations are uploaded. -/
theorem c4_witness :
    (upload_to_huggingface w4).2 = Outcome.error "upload failed" ∧
    uploadDests (upload_to_huggingface w4).1 = ["results/a.txt", "results/sub/b.txt"] :=
  c4_upload_error_aborts w4 "alice" "upload failed" "sub/b.txt" ["a.txt"] ["c.txt"]
    (by decide) rfl rfl rfl rfl (by decide) (by decide)

/-- Witness for C5 at the missing-tool failure. -/
theorem c5_witness :
    get_current_git_commit GitOutcome.fileNotFound = none ∧
    gitLogLines GitOutcome.fileNotFound ≠ [] :=
  c5_git_failure_returns_none GitOutcome.fileNotFound
    (fun _ h => GitOutcome.noConfusion h)

/-- Witness for C6 at the base world, whose username is supplied. -/
theorem c6_witness : Call.whoami ∉ (upload_to_huggingface baseWorld).1 :=
  c6_username_set_no_whoami baseWorld (by decide)

/-- Witness for C7: with git missing, the run still completes. -/
theorem c7_witness : (upload_to_huggingface w7).2 = Outcome.ok :=
  (c7_fallback_commit_messages w7 "alice" (by decide) rfl rfl rfl rfl (fun _ => rfl)).1

/-- Witness for C9: with the username set to the empty string (token
present), the identity lookup is made. -/
theorem c9_witness :
    Call.whoami ∈ (upload_to_huggingface { baseWorld with hfUsername := some "" }).1 :=
  (c9_empty_env_vars_like_unset baseWorld).2.2 (by decide)

/-- Witness for C10 at the base world: exactly one creation call. -/
theorem c10_witness :
    ((upload_to_huggingface baseWorld).1.filter Call.isCreate).length = 1 :=
  (c10_repo_id_consistent baseWorld "alice" (by decide) rfl).2.2
